import Mathlib

/-
Verification of the mediamtx core against its specification.

Shallow embedding of three source files:
  internal/core/api.go          (HTTP configuration API)
  internal/core/rtsp_session.go (RTSP session state machine)
  internal/core/webrtc_conn.go  (WebRTC reader connection)

Conventions:
  * Go structs become Lean structures; Go maps become association lists
    (lookup returns the first binding; the real maps have unique keys).
  * Mutation becomes explicit state passing; every handler returns the new
    state together with the HTTP/RTSP result and the list of side effects
    it fired (for the API: the configurations passed to apiConfigSet).
  * External collaborators that live outside the given source files
    (conf.Conf.Check, conf.Conf.Clone, the PathManager, gortsplib helpers)
    are modelled from the specification; each such definition carries a
    doc comment saying so.
-/

namespace MediaMTX

/-- Scalar value of a configuration field, abstracted to a string. A JSON
body member that is present with value null corresponds to a nil pointer in
the decoded optional struct, i.e. to an absent member in this model. -/
abbrev Val := String

/-- Lookup in an association list: the first binding of the key, as a Go map
lookup (real maps have unique keys). -/
def alookup {α : Type} : List (String × α) → String → Option α
  | [], _ => none
  | e :: t, n => if e.1 = n then some e.2 else alookup t n

/-- Deletion from an association list: removes every binding of the key, as
the Go builtin delete removes the (unique) binding. -/
def adelete {α : Type} : List (String × α) → String → List (String × α)
  | [], _ => []
  | e :: t, n => if e.1 = n then adelete t n else e :: adelete t n

/-- In-place update of the value bound to a key, as mutating through the
pointer stored in the map updates that entry. -/
def aupdate {α : Type} (l : List (String × α)) (n : String) (v : α) :
    List (String × α) :=
  l.map (fun e => if e.1 = n then (e.1, v) else e)

/-- Modelled from the spec: conf.PathConf (not under src/), the per-path
policy record, as a record of named scalar fields. -/
structure PathConf where
  fields : List (String × Val)
deriving DecidableEq, Repr

/-- Modelled from the spec: conf.Conf (not under src/): top-level scalar
fields (identifying each field name with its json tag) plus the paths map,
which in the Go struct is the field with json tag "paths". Fields with json
tag "-" are omitted from the model: they are neither serialized nor settable
through the API. -/
structure Conf where
  globals : List (String × Val)
  paths : List (String × PathConf)
deriving DecidableEq, Repr

/-- Modelled from the spec: conf.Conf.Clone performs a deep copy of the
configuration; on pure values a deep copy is the value itself. -/
def Conf.clone (c : Conf) : Conf := c

/-- A decoded JSON request body for /v1/config/set: the scalar members
(keyed by json tag, only those present and non-null) and the optional
"paths" member. -/
structure ConfBody where
  globals : List (String × Val)
  paths : Option (List (String × PathConf))
deriving DecidableEq, Repr

/-- A decoded JSON request body for the per-path endpoints: the optional
struct generated from conf.PathConf, one optional field per path-conf field
(api.go, generateStructWithOptionalFields + loadConfPathData). -/
abbrev OptPathConf := List (String × Option Val)

/-- Composition of generateStructWithOptionalFields, json decoding and
fillStruct for the global configuration (api.go 23-38, 40-59): the generated
struct has one pointer field per Conf field whose json tag is neither "-"
nor "paths", so a body member with tag "paths" (or an unknown tag) is
ignored by the decoder, and fillStruct overwrites exactly the destination
fields whose pointer is non-nil, leaving the rest untouched. -/
def fillStructConf (dest : Conf) (body : ConfBody) : Conf :=
  { globals := dest.globals.map (fun f =>
      match alookup body.globals f.1 with
      | some v => (f.1, v)
      | none => f),
    paths := dest.paths }

/-- fillStruct applied to a freshly zeroed conf.PathConf
(api.go 287-288): fields present in the body take the body value, the
others keep the zero value. -/
def PathConf.fromOpt (body : OptPathConf) : PathConf :=
  ⟨body.map (fun e => (e.1, e.2.getD ""))⟩

/-- fillStruct applied to an existing conf.PathConf (api.go 332): fields
present in the body are overwritten, the others keep their value. -/
def PathConf.fill (dest : PathConf) (body : OptPathConf) : PathConf :=
  ⟨dest.fields.map (fun f =>
    match alookup body f.1 with
    | some (some v) => (f.1, v)
    | _ => f)⟩

/-- JSON serialization of the configuration as returned by
onConfigGet (api.go 226-232): every modelled field is serialized under its
json tag, the paths map under "paths". -/
def encodeConf (c : Conf) : ConfBody :=
  ⟨c.globals, some c.paths⟩

/-- Name-parameter handling shared by the per-path endpoints
(api.go 264-269 etc.): the raw parameter must be at least two bytes long
and start with a slash, which is stripped. -/
def stripName (raw : String) : Option String :=
  if raw.length < 2 then none
  else if raw.front ≠ '/' then none
  else some (raw.drop 1)

/-- The api object's mutable state relevant to the claims: the stored
configuration (api.go, field conf guarded by mutex). -/
structure ApiState where
  conf : Conf
deriving DecidableEq, Repr

/-- Result of an API handler: ctx.Status(http.StatusOK) or
ctx.AbortWithStatus(http.StatusBadRequest). -/
inductive ApiResult where
  | ok
  | badRequest
deriving DecidableEq, Repr

/-- onConfigGet (api.go 226-232): returns 200 with the stored configuration
serialized as JSON. -/
def onConfigGet (a : ApiState) : Nat × ConfBody :=
  (200, encodeConf a.conf)

/-- onConfigSet (api.go 234-261). The body argument is the result of
loadConfData: none on a decode error. The check argument models
conf.Conf.Check (not under src/): true iff validation succeeds. The third
component of the result lists the configurations handed to
parent.apiConfigSet. -/
def onConfigSet (check : Conf → Bool) (a : ApiState) (body : Option ConfBody) :
    ApiState × ApiResult × List Conf :=
  match body with
  | none => (a, ApiResult.badRequest, [])
  | some b =>
    let newConf := fillStructConf (Conf.clone a.conf) b
    if check newConf then ({ conf := newConf }, ApiResult.ok, [newConf])
    else (a, ApiResult.badRequest, [])

/-- onConfigPathsAdd (api.go 263-305). -/
def onConfigPathsAdd (check : Conf → Bool) (a : ApiState) (rawName : String)
    (body : Option OptPathConf) : ApiState × ApiResult × List Conf :=
  match stripName rawName with
  | none => (a, ApiResult.badRequest, [])
  | some name =>
    match body with
    | none => (a, ApiResult.badRequest, [])
    | some b =>
      let cloned := Conf.clone a.conf
      match alookup cloned.paths name with
      | some _ => (a, ApiResult.badRequest, [])
      | none =>
        let newConf := { cloned with
          paths := (name, PathConf.fromOpt b) :: cloned.paths }
        if check newConf then ({ conf := newConf }, ApiResult.ok, [newConf])
        else (a, ApiResult.badRequest, [])

/-- onConfigPathsEdit (api.go 307-347): fillStruct mutates the path conf
held in the cloned map, i.e. updates that entry. -/
def onConfigPathsEdit (check : Conf → Bool) (a : ApiState) (rawName : String)
    (body : Option OptPathConf) : ApiState × ApiResult × List Conf :=
  match stripName rawName with
  | none => (a, ApiResult.badRequest, [])
  | some name =>
    match body with
    | none => (a, ApiResult.badRequest, [])
    | some b =>
      let cloned := Conf.clone a.conf
      match alookup cloned.paths name with
      | none => (a, ApiResult.badRequest, [])
      | some pc =>
        let newConf := { cloned with
          paths := aupdate cloned.paths name (PathConf.fill pc b) }
        if check newConf then ({ conf := newConf }, ApiResult.ok, [newConf])
        else (a, ApiResult.badRequest, [])

/-- onConfigPathsDelete (api.go 349-382). -/
def onConfigPathsDelete (check : Conf → Bool) (a : ApiState)
    (rawName : String) : ApiState × ApiResult × List Conf :=
  match stripName rawName with
  | none => (a, ApiResult.badRequest, [])
  | some name =>
    let cloned := Conf.clone a.conf
    match alookup cloned.paths name with
    | none => (a, ApiResult.badRequest, [])
    | some _ =>
      let newConf := { cloned with paths := adelete cloned.paths name }
      if check newConf then ({ conf := newConf }, ApiResult.ok, [newConf])
      else (a, ApiResult.badRequest, [])

/-- Modelled from gortsplib (external): ServerSessionState, the four-state
RTSP substate machine that rtspSession.state mirrors. -/
inductive SessionState where
  | initial
  | prePlay
  | play
  | preRecord
  | record
deriving DecidableEq, Repr

/-- Reference to a core path, identified by its name. -/
structure PathRef where
  name : String
deriving DecidableEq, Repr

/-- Reference to a stream, identified opaquely. -/
structure StreamRef where
  id : Nat
deriving DecidableEq, Repr

/-- Modelled from the spec: the protocol tag carried in authCredentials
(authProtocolRTSP etc., not under src/); unset is the Go zero value. -/
inductive AuthProto where
  | unset
  | rtsp
  | rtmp
  | webrtc
deriving DecidableEq, Repr

/-- Modelled from gortsplib/url (external): the base URL built by onSetup
for digest authentication. -/
structure RtspURL where
  scheme : String
  host : String
  path : String
  rawQuery : String
deriving DecidableEq, Repr

/-- Modelled from the spec: the credential set handed to the Auth module
(fields as used by rtsp_session.go; the RTSP request and the connection id
are abstracted to presence flags). -/
structure AuthCredentials where
  query : String
  ip : String
  proto : AuthProto
  hasID : Bool
  hasRtspRequest : Bool
  rtspBaseURL : Option RtspURL
  rtspNonce : String
deriving DecidableEq, Repr

/-- The Go zero value of authCredentials, what a struct literal leaves when
the credentials field is not mentioned. -/
def AuthCredentials.zero : AuthCredentials :=
  ⟨"", "", AuthProto.unset, false, false, none, ""⟩

/-- Modelled from the spec: pathReaderAddReq (not under src/), the reader
admission request sent to pathManager.readerAdd, with the fields the two
wrappers set; skipAuth defaults to false. -/
structure PathReaderAddReq where
  pathName : String
  credentials : AuthCredentials
  skipAuth : Bool
deriving DecidableEq, Repr

/-- Modelled from the spec: the PathManager (not under src/) authenticates a
reader admission request before admitting the reader, unless the request
asks to bypass authentication through its skipAuth field. -/
def pathManagerAuthenticates (req : PathReaderAddReq) : Bool :=
  !req.skipAuth

/-- The error cases of a path-manager response distinguished by the session
handlers: pathErrAuth, pathErrNoOnePublishing, and the default case. -/
inductive PathErrM where
  | auth (wrapped : String)
  | noOnePublishing
  | other (msg : String)
deriving DecidableEq, Repr

/-- Modelled from the spec: pathReaderSetupPlayRes, the response of
pathManager.readerAdd: the admitted path and its active stream, or an
error. -/
structure ReaderAddRes where
  path : Option PathRef
  stream : Option StreamRef
  err : Option PathErrM
deriving DecidableEq, Repr

/-- Modelled from gortsplib/base (external): RTSP status code 200 OK. -/
def statusOK : Nat := 200

/-- Modelled from gortsplib/base (external): RTSP status code 400. -/
def statusBadRequest : Nat := 400

/-- Modelled from gortsplib/base (external): RTSP status code 404. -/
def statusNotFound : Nat := 404

/-- Modelled from gortsplib/base (external): RTSP status code 461. -/
def statusUnsupportedTransport : Nat := 461

/-- The rtspSession fields the handlers mutate: the mirrored state, the
joined path, the stream, and whether a runOnRead command is running. -/
structure RtspSessionM where
  state : SessionState
  path : Option PathRef
  stream : Option StreamRef
  onReadCmdRunning : Bool
deriving DecidableEq, Repr

/-- The rtspConn fields read by the session handlers: the client IP and the
digest nonce issued on this connection. -/
structure RtspConnM where
  ip : String
  authNonce : String
deriving DecidableEq, Repr

/-- Modelled from gortsplib (external): the transport negotiated by SETUP. -/
inductive Transport where
  | udp
  | udpMulticast
  | tcp
deriving DecidableEq, Repr

/-- Path-parameter handling shared by onAnnounce and onSetup
(rtsp_session.go 194-199, 245-250): the path must be non-empty and start
with a slash, which is stripped. -/
def rtspStripPath (raw : String) : Option String :=
  if raw.length = 0 then none
  else if raw.front ≠ '/' then none
  else some (raw.drop 1)

/-- The base URL built by onSetup for the credentials
(rtsp_session.go 266-277). -/
def mkSetupBaseURL (scheme host strippedPath query : String) : RtspURL :=
  if query ≠ "" then ⟨scheme, host, strippedPath, query ++ "/"⟩
  else ⟨scheme, host, strippedPath ++ "/", query⟩

/-- The reader admission request built by onSetup
(rtsp_session.go 283-295): full credentials, skipAuth left false. -/
def mkSetupReaderAddReq (strippedPath query ip nonce scheme host : String) :
    PathReaderAddReq :=
  { pathName := strippedPath,
    credentials := { query := query, ip := ip, proto := AuthProto.rtsp,
                     hasID := true, hasRtspRequest := true,
                     rtspBaseURL :=
                       some (mkSetupBaseURL scheme host strippedPath query),
                     rtspNonce := nonce },
    skipAuth := false }

/-- The reader admission request sent by webRTCConn.runInner
(webrtc_conn.go 301-305): only the path name; the credentials field is left
at its zero value and skipAuth is set to true. -/
def webRTCReaderAddReq (pathName : String) : PathReaderAddReq :=
  { pathName := pathName, credentials := AuthCredentials.zero,
    skipAuth := true }

/-- Outcome of onSetup: either an RTSP response (the Bool records whether
the path's rtspStream is handed back to gortsplib) or delegation to
rtspConn.handleAuthError, the challenge/401 flow. -/
inductive SetupOutcome where
  | response (status : Nat) (withStream : Bool)
  | authFlow (wrapped : String)
deriving DecidableEq, Repr

/-- onSetup (rtsp_session.go 243-331). Parameters stand for the external
collaborators: readerAdd is pathManager.readerAdd, freshNonce the value
auth.GenerateNonce would return, libState the value of s.session.State(),
tcpEnabled whether TCP is among the enabled protocols. -/
def onSetup (readerAdd : PathReaderAddReq → ReaderAddRes)
    (s : RtspSessionM) (libState : SessionState) (c : RtspConnM)
    (scheme host rawPath query freshNonce : String) (transport : Transport)
    (tcpEnabled : Bool) : RtspSessionM × SetupOutcome :=
  match rtspStripPath rawPath with
  | none => (s, SetupOutcome.response statusBadRequest false)
  | some p =>
    if transport = Transport.tcp ∧ ¬tcpEnabled then
      (s, SetupOutcome.response statusUnsupportedTransport false)
    else
      match libState with
      | SessionState.initial | SessionState.prePlay =>
        let nonce := if c.authNonce = "" then freshNonce else c.authNonce
        let res := readerAdd (mkSetupReaderAddReq p query c.ip nonce scheme host)
        match res.err with
        | some (PathErrM.auth w) => (s, SetupOutcome.authFlow w)
        | some PathErrM.noOnePublishing =>
            (s, SetupOutcome.response statusNotFound false)
        | some (PathErrM.other _) =>
            (s, SetupOutcome.response statusBadRequest false)
        | none =>
            ({ s with path := res.path, stream := res.stream,
                      state := SessionState.prePlay },
             SetupOutcome.response statusOK true)
      | _ => (s, SetupOutcome.response statusOK false)

/-- Outcome of onAnnounce: a response or the challenge/401 flow. -/
inductive AnnounceOutcome where
  | response (status : Nat)
  | authFlow (wrapped : String)
deriving DecidableEq, Repr

/-- onAnnounce (rtsp_session.go 193-240). pubRes is the result of
pathManager.publisherAdd on the request built from the session's
credentials: the admitted path or an error. -/
def onAnnounce (s : RtspSessionM) (rawPath : String)
    (pubRes : Except PathErrM PathRef) : RtspSessionM × AnnounceOutcome :=
  match rtspStripPath rawPath with
  | none => (s, AnnounceOutcome.response statusBadRequest)
  | some _ =>
    match pubRes with
    | Except.error (PathErrM.auth w) => (s, AnnounceOutcome.authFlow w)
    | Except.error _ => (s, AnnounceOutcome.response statusBadRequest)
    | Except.ok p =>
        ({ s with path := some p, state := SessionState.preRecord },
         AnnounceOutcome.response statusOK)

/-- onPlay (rtsp_session.go 334-366): only when gortsplib reports PrePlay
does the handler start runOnRead (when configured) and move the mirrored
state to Play; the response is always 200. -/
def onPlay (s : RtspSessionM) (libState : SessionState)
    (runOnReadConfigured : Bool) : RtspSessionM × Nat :=
  if libState = SessionState.prePlay then
    ({ s with onReadCmdRunning := s.onReadCmdRunning || runOnReadConfigured,
              state := SessionState.play },
     statusOK)
  else (s, statusOK)

/-- onRecord (rtsp_session.go 369-405): on success of path.publisherStart
the session stores the stream, registers the RTP write callbacks and moves
the mirrored state to Record; on failure it responds 400. -/
def onRecord (s : RtspSessionM) (startRes : Except PathErrM StreamRef) :
    RtspSessionM × Nat :=
  match startRes with
  | Except.error _ => (s, statusBadRequest)
  | Except.ok st =>
      ({ s with stream := some st, state := SessionState.record }, statusOK)

/-- A request sent to the session's path by a handler. -/
inductive PathCmd where
  | publisherStop
deriving DecidableEq, Repr

/-- onPause (rtsp_session.go 408-431): the middle component of the result
collects the requests sent to the session's path. -/
def onPause (s : RtspSessionM) (libState : SessionState) :
    RtspSessionM × List PathCmd × Nat :=
  match libState with
  | SessionState.play =>
      ({ s with onReadCmdRunning := false, state := SessionState.prePlay },
       [], statusOK)
  | SessionState.record =>
      ({ s with state := SessionState.preRecord },
       [PathCmd.publisherStop], statusOK)
  | _ => (s, [], statusOK)

/-- Modelled from gortsplib/formats (external): the codec tag of a track
format, the granularity at which webrtc_conn.go type-switches. -/
inductive FormatM where
  | av1
  | vp9
  | vp8
  | h264
  | h265
  | opus
  | g722
  | g711 (mulaw : Bool)
  | mpeg2Audio
  | mpeg4Audio
  | generic
deriving DecidableEq, Repr

/-- Modelled from gortsplib/media (external): a media is a list of
formats. -/
structure MediaM where
  formats : List FormatM
deriving DecidableEq, Repr

/-- Modelled from gortsplib/media (external): the Medias list of a
stream. -/
abbrev MediasM := List MediaM

/-- Recognizer for the AV1 format type. -/
def FormatM.isAV1 : FormatM → Bool
  | FormatM.av1 => true
  | _ => false

/-- Recognizer for the VP9 format type. -/
def FormatM.isVP9 : FormatM → Bool
  | FormatM.vp9 => true
  | _ => false

/-- Recognizer for the VP8 format type. -/
def FormatM.isVP8 : FormatM → Bool
  | FormatM.vp8 => true
  | _ => false

/-- Recognizer for the H264 format type. -/
def FormatM.isH264 : FormatM → Bool
  | FormatM.h264 => true
  | _ => false

/-- Recognizer for the Opus format type. -/
def FormatM.isOpus : FormatM → Bool
  | FormatM.opus => true
  | _ => false

/-- Recognizer for the G722 format type. -/
def FormatM.isG722 : FormatM → Bool
  | FormatM.g722 => true
  | _ => false

/-- Recognizer for the G711 format type (either law). -/
def FormatM.isG711 : FormatM → Bool
  | FormatM.g711 _ => true
  | _ => false

/-- Modelled from gortsplib (external): Media.FindFormat scans the formats
of one media in order for the first one of the requested type. -/
def findFormatIn (p : FormatM → Bool) : List FormatM → Option FormatM
  | [] => none
  | f :: t => if p f then some f else findFormatIn p t

/-- Modelled from gortsplib (external): Medias.FindFormat scans the medias
in order and, within each media, the formats in order, returning the first
format of the requested type together with its media. -/
def findFormat (p : FormatM → Bool) : MediasM → Option (MediaM × FormatM)
  | [] => none
  | m :: t =>
    match findFormatIn p m.formats with
    | some f => some (m, f)
    | none => findFormat p t

/-- The webRTCTrack record (webrtc_conn.go 78-83), reduced to the media and
format it attaches to. -/
structure WebRTCTrackM where
  media : MediaM
  format : FormatM
deriving DecidableEq, Repr

/-- createVideoTrack (webrtc_conn.go 568-767): tries AV1, then VP9, then
VP8, then H264; returns none when no video format of these types exists. -/
def createVideoTrack (medias : MediasM) : Option WebRTCTrackM :=
  match findFormat FormatM.isAV1 medias with
  | some (m, f) => some ⟨m, f⟩
  | none =>
  match findFormat FormatM.isVP9 medias with
  | some (m, f) => some ⟨m, f⟩
  | none =>
  match findFormat FormatM.isVP8 medias with
  | some (m, f) => some ⟨m, f⟩
  | none =>
  match findFormat FormatM.isH264 medias with
  | some (m, f) => some ⟨m, f⟩
  | none => none

/-- createAudioTrack (webrtc_conn.go 769-862): tries Opus, then G722, then
G711; returns none when no audio format of these types exists. -/
def createAudioTrack (medias : MediasM) : Option WebRTCTrackM :=
  match findFormat FormatM.isOpus medias with
  | some (m, f) => some ⟨m, f⟩
  | none =>
  match findFormat FormatM.isG722 medias with
  | some (m, f) => some ⟨m, f⟩
  | none =>
  match findFormat FormatM.isG711 medias with
  | some (m, f) => some ⟨m, f⟩
  | none => none

/-- How far runInner gets before its signaling handshake: reader admission
(webrtc_conn.go 301-306), then track creation (316-339); the unsupported
codec error is returned before the first message of the handshake is
written (341). -/
inductive RunInnerStep where
  | errReaderAdd (e : PathErrM)
  | errUnsupportedCodec
  | handshake (tracks : List WebRTCTrackM)
deriving DecidableEq, Repr

/-- The prefix of runInner up to the start of the handshake
(webrtc_conn.go 300-341): the video track is appended first, then the audio
track; if both are absent the connection fails with the unsupported-codec
error. -/
def runInnerSetup (readerAddErr : Option PathErrM) (medias : MediasM) :
    RunInnerStep :=
  match readerAddErr with
  | some e => RunInnerStep.errReaderAdd e
  | none =>
    let tracks := (createVideoTrack medias).toList
      ++ (createAudioTrack medias).toList
    if tracks.isEmpty then RunInnerStep.errUnsupportedCodec
    else RunInnerStep.handshake tracks

/-- Video codec kinds supported by the WebRTC reader, for stating the
selection priority. -/
inductive VKind where
  | av1
  | vp9
  | vp8
  | h264
deriving DecidableEq, Repr

/-- Audio codec kinds supported by the WebRTC reader. -/
inductive AKind where
  | opus
  | g722
  | g711
deriving DecidableEq, Repr

/-- The supported video kind of a format, if any. -/
def vkindOf : FormatM → Option VKind
  | FormatM.av1 => some VKind.av1
  | FormatM.vp9 => some VKind.vp9
  | FormatM.vp8 => some VKind.vp8
  | FormatM.h264 => some VKind.h264
  | _ => none

/-- The supported audio kind of a format, if any. -/
def akindOf : FormatM → Option AKind
  | FormatM.opus => some AKind.opus
  | FormatM.g722 => some AKind.g722
  | FormatM.g711 _ => some AKind.g711
  | _ => none

/-- Whether some media of the stream contains a format of the given video
kind. -/
def hasVKind (medias : MediasM) (k : VKind) : Bool :=
  medias.any (fun m => m.formats.any (fun f => vkindOf f = some k))

/-- Whether some media of the stream contains a format of the given audio
kind. -/
def hasAKind (medias : MediasM) (k : AKind) : Bool :=
  medias.any (fun m => m.formats.any (fun f => akindOf f = some k))

/-- Modelled from the spec: the fixed video priority AV1, then VP9, then
VP8, then H264 — the first kind of that order present in the stream. -/
def specFirstVideoKind (medias : MediasM) : Option VKind :=
  if hasVKind medias VKind.av1 then some VKind.av1
  else if hasVKind medias VKind.vp9 then some VKind.vp9
  else if hasVKind medias VKind.vp8 then some VKind.vp8
  else if hasVKind medias VKind.h264 then some VKind.h264
  else none

/-- Modelled from the spec: the fixed audio priority Opus, then G722, then
G711 — the first kind of that order present in the stream. -/
def specFirstAudioKind (medias : MediasM) : Option AKind :=
  if hasAKind medias AKind.opus then some AKind.opus
  else if hasAKind medias AKind.g722 then some AKind.g722
  else if hasAKind medias AKind.g711 then some AKind.g711
  else none

/-- An event delivered to the candidate-exchange loop of runInner before
its deadline timer fires: a local candidate to forward over the WebSocket
(the Bool records whether the write succeeds), a remote candidate to add to
the peer connection (the Bool records whether adding succeeds), a WebSocket
read error, the peer connection reaching the connected state, or context
cancellation. -/
inductive HsEvent where
  | localCandidate (writeOk : Bool)
  | remoteCandidate (addOk : Bool)
  | wsReadError
  | connected
  | ctxDone
deriving DecidableEq, Repr

/-- How the candidate-exchange loop of runInner ends. -/
inductive HsResult where
  | deadlineExceeded
  | terminated
  | wsError
  | writeCandidateError
  | addCandidateError
  | established
deriving DecidableEq, Repr

/-- The handshake deadline (webrtc_conn.go 35): 10 seconds. -/
def webrtcHandshakeDeadline : Nat := 10

/-- The candidate-exchange loop of runInner (webrtc_conn.go 478-510) on the
linearized sequence of events delivered before the deadline timer fires:
each event is handled as by the select statement, and if none of them ends
the loop, the timer case returns the deadline-exceeded error. -/
def handshakeLoop : List HsEvent → HsResult
  | [] => HsResult.deadlineExceeded
  | e :: rest =>
    match e with
    | HsEvent.localCandidate ok =>
        if ok then handshakeLoop rest else HsResult.writeCandidateError
    | HsEvent.remoteCandidate ok =>
        if ok then handshakeLoop rest else HsResult.addCandidateError
    | HsEvent.wsReadError => HsResult.wsError
    | HsEvent.connected => HsResult.established
    | HsEvent.ctxDone => HsResult.terminated

/-- The candidate-exchange loop under real time: the loop is entered at
time t0, the deadline timer fires at t0 + webrtcHandshakeDeadline (seconds),
and exactly the events timestamped before that instant are delivered to the
loop, in order. -/
def runHandshake (t0 : Nat) (events : List (Nat × HsEvent)) : HsResult :=
  handshakeLoop
    ((events.filter (fun e => e.1 < t0 + webrtcHandshakeDeadline)).map
      Prod.snd)

/-- Frame property of one mutating endpoint run: on 400 Bad Request nothing
is stored and nothing is propagated; a configuration is stored and
propagated only when it passed validation, and then the stored and the
propagated configuration coincide. -/
def mutatesOnlyValidated (check : Conf → Bool) (a : ApiState)
    (out : ApiState × ApiResult × List Conf) : Prop :=
  (out.2.1 = ApiResult.badRequest → out.1 = a ∧ out.2.2 = []) ∧
  (out.2.1 = ApiResult.ok → check out.1.conf = true ∧ out.2.2 = [out.1.conf])

/-- A small concrete configuration used by the witnesses: one global field
and one path. -/
def sampleConf : Conf :=
  ⟨[("logLevel", "info")], [("cam1", ⟨[("source", "publisher")]⟩)]⟩

/-- A concrete RTSP session in its initial state, used by the witnesses. -/
def sampleSession : RtspSessionM :=
  ⟨SessionState.initial, none, none, false⟩

/-- A concrete RTSP connection, used by the witnesses. -/
def sampleRtspConn : RtspConnM :=
  ⟨"192.0.2.1", "abcdnonce"⟩

theorem alookup_fillGlobals (b : List (String × Val)) :
    ∀ (l : List (String × Val)) (n : String),
      alookup (l.map (fun f =>
        match alookup b f.1 with
        | some v => (f.1, v)
        | none => f)) n =
      (alookup l n).map (fun v => (alookup b n).getD v)
  | [], _ => by simp [alookup]
  | (k, v) :: t, n => by
    by_cases hk : k = n
    · subst hk
      cases hb : alookup b k <;> simp [alookup, hb]
    · cases hb : alookup b k <;>
        simp [alookup, hk, hb, alookup_fillGlobals b t n]

theorem map_fill_of_alookup (b : List (String × Val)) :
    ∀ l : List (String × Val),
      (∀ e ∈ l, alookup b e.1 = some e.2) →
      l.map (fun f =>
        match alookup b f.1 with
        | some v => (f.1, v)
        | none => f) = l := by
  intro l h
  induction l with
  | nil => rfl
  | cons e t ih =>
    have he : alookup b e.1 = some e.2 := h e (List.mem_cons_self e t)
    have ht := ih (fun x hx => h x (List.mem_cons_of_mem e hx))
    simp [he, ht]

theorem alookup_self_of_nodup :
    ∀ l : List (String × Val), (l.map Prod.fst).Nodup →
      ∀ e ∈ l, alookup l e.1 = some e.2
  | [], _, e, he => by cases he
  | (k, v) :: t, h, e, he => by
    rcases List.mem_cons.mp he with rfl | hm
    · simp [alookup]
    · have hk : e.1 ≠ k := by
        intro hek
        have hmem : e.1 ∈ t.map Prod.fst := List.mem_map_of_mem Prod.fst hm
        rw [hek] at hmem
        exact (List.nodup_cons.mp h).1 hmem
      simp only [alookup]
      rw [if_neg (fun hkk => hk hkk.symm)]
      exact alookup_self_of_nodup t (List.nodup_cons.mp h).2 e hm

theorem adelete_of_alookup_none {α : Type} :
    ∀ (l : List (String × α)) (n : String),
      alookup l n = none → adelete l n = l
  | [], _, _ => rfl
  | (k, v) :: t, n, h => by
    by_cases hk : k = n
    · simp [alookup, hk] at h
    · simp only [alookup, if_neg hk] at h
      simp [adelete, hk, adelete_of_alookup_none t n h]

/-- C1: every mutating configuration endpoint (/v1/config/set,
/v1/config/paths/add, edit, remove) builds the modified configuration on a
clone and validates it before committing: on a 400 Bad Request the stored
configuration and the propagation list are exactly those from before the
request, and a configuration is stored and handed to apiConfigSet only when
it passed validation. -/
theorem configMutationsValidateBeforeCommit (check : Conf → Bool)
    (a : ApiState) (rawName : String) (cb : Option ConfBody)
    (pb : Option OptPathConf) :
    mutatesOnlyValidated check a (onConfigSet check a cb) ∧
    mutatesOnlyValidated check a (onConfigPathsAdd check a rawName pb) ∧
    mutatesOnlyValidated check a (onConfigPathsEdit check a rawName pb) ∧
    mutatesOnlyValidated check a (onConfigPathsDelete check a rawName) := by
  refine ⟨?_, ?_, ?_, ?_⟩
  · unfold mutatesOnlyValidated onConfigSet
    dsimp only
    repeat' split
    all_goals simp_all
  · unfold mutatesOnlyValidated onConfigPathsAdd
    dsimp only
    repeat' split
    all_goals simp_all
  · unfold mutatesOnlyValidated onConfigPathsEdit
    dsimp only
    repeat' split
    all_goals simp_all
  · unfold mutatesOnlyValidated onConfigPathsDelete
    dsimp only
    repeat' split
    all_goals simp_all

/-- Witness for C1: a rejected body on a failing validator leaves the
sample state untouched and propagates nothing. -/
theorem configMutationsValidateBeforeCommitWitness :
    (onConfigSet (fun _ => false) ⟨sampleConf⟩ (some ⟨[], none⟩)).1 =
      ⟨sampleConf⟩ ∧
    (onConfigSet (fun _ => false) ⟨sampleConf⟩ (some ⟨[], none⟩)).2.2 = [] :=
  (configMutationsValidateBeforeCommit (fun _ => false) ⟨sampleConf⟩ "/x"
    (some ⟨[], none⟩) none).1.1 rfl

/-- C2 counterexample: the reader admission request sent by the WebRTC
connection wrapper does not carry the client's credentials and asks the
PathManager to skip authentication, so it is not the case that every
session wrapper's readerAdd request carries credentials and is
authenticated by the PathManager. -/
theorem webrtcReaderRequestSkipsAuth :
    (webRTCReaderAddReq "stream").skipAuth = true ∧
    (webRTCReaderAddReq "stream").credentials = AuthCredentials.zero ∧
    pathManagerAuthenticates (webRTCReaderAddReq "stream") = false :=
  ⟨rfl, rfl, rfl⟩

/-- C2 (amended): the RTSP session's SETUP reader admission request carries
the client's credentials (query, IP, RTSP protocol tag, nonce) with
skipAuth false, so the PathManager authenticates it before admitting the
reader; the WebRTC connection's request instead carries zero credentials
and sets skipAuth, so the PathManager does not authenticate it. -/
theorem readerAddCredentialsByWrapper
    (strippedPath query ip nonce scheme host pn : String) :
    (mkSetupReaderAddReq strippedPath query ip nonce scheme host).skipAuth
        = false ∧
    (mkSetupReaderAddReq strippedPath query ip nonce scheme
        host).credentials.query = query ∧
    (mkSetupReaderAddReq strippedPath query ip nonce scheme
        host).credentials.ip = ip ∧
    (mkSetupReaderAddReq strippedPath query ip nonce scheme
        host).credentials.rtspNonce = nonce ∧
    (mkSetupReaderAddReq strippedPath query ip nonce scheme
        host).credentials.proto = AuthProto.rtsp ∧
    pathManagerAuthenticates
        (mkSetupReaderAddReq strippedPath query ip nonce scheme host)
        = true ∧
    (webRTCReaderAddReq pn).skipAuth = true ∧
    (webRTCReaderAddReq pn).credentials = AuthCredentials.zero ∧
    pathManagerAuthenticates (webRTCReaderAddReq pn) = false :=
  ⟨rfl, rfl, rfl, rfl, rfl, rfl, rfl, rfl, rfl⟩

/-- C3 counterexample: a /v1/config/set body whose only member is "paths"
decodes and validates, the response is 200, yet the committed configuration
keeps the previous paths map instead of the provided value: a top-level
field present in the body does not take the provided value. -/
theorem configSetIgnoresPathsField :
    (onConfigSet (fun _ => true) ⟨sampleConf⟩
        (some ⟨[], some [("newpath", ⟨[]⟩)]⟩)).2.1 = ApiResult.ok ∧
    (onConfigSet (fun _ => true) ⟨sampleConf⟩
        (some ⟨[], some [("newpath", ⟨[]⟩)]⟩)).1.conf.paths =
      sampleConf.paths ∧
    sampleConf.paths ≠ [("newpath", ⟨[]⟩)] := by
  refine ⟨rfl, rfl, by decide⟩

/-- C3 (amended): for a POST /v1/config/set whose body decodes and whose
resulting configuration validates, every top-level field other than the
excluded paths field that is present (non-null) in the body takes the
provided value, every field absent from the body keeps its previous value,
and the paths map always keeps its previous value (it is settable only
through the dedicated per-path endpoints). -/
theorem configSetPartialUpdate (check : Conf → Bool) (s : ApiState)
    (b : ConfBody)
    (hcheck : check (fillStructConf (Conf.clone s.conf) b) = true) :
    (onConfigSet check s (some b)).2.1 = ApiResult.ok ∧
    (∀ n v, alookup s.conf.globals n = some v →
      alookup (onConfigSet check s (some b)).1.conf.globals n =
        some ((alookup b.globals n).getD v)) ∧
    (onConfigSet check s (some b)).1.conf.paths = s.conf.paths := by
  have hout : onConfigSet check s (some b) =
      ({ conf := fillStructConf (Conf.clone s.conf) b }, ApiResult.ok,
        [fillStructConf (Conf.clone s.conf) b]) := by
    simp [onConfigSet, hcheck]
  rw [hout]
  refine ⟨rfl, ?_, rfl⟩
  intro n v hv
  show alookup ((Conf.clone s.conf).globals.map _) n = _
  simp [Conf.clone, alookup_fillGlobals, hv]

/-- Witness for C3: overriding the sample configuration's logLevel field
through /v1/config/set commits the provided value. -/
theorem configSetPartialUpdateWitness :
    alookup (onConfigSet (fun _ => true) ⟨sampleConf⟩
        (some ⟨[("logLevel", "debug")], none⟩)).1.conf.globals "logLevel" =
      some "debug" :=
  (configSetPartialUpdate (fun _ => true) ⟨sampleConf⟩
      ⟨[("logLevel", "debug")], none⟩ rfl).2.1 "logLevel" "info" (by decide)

/-- C4: posting the exact JSON document returned by /v1/config/get back to
/v1/config/set succeeds and stores the identical configuration, with the
unchanged configuration propagated. -/
theorem configSetGetIdentity (check : Conf → Bool) (s : ApiState)
    (hkeys : (s.conf.globals.map Prod.fst).Nodup)
    (hcheck : check s.conf = true) :
    onConfigSet check s (some (onConfigGet s).2) =
      (s, ApiResult.ok, [s.conf]) := by
  have hg : s.conf.globals.map (fun f =>
      match alookup s.conf.globals f.1 with
      | some v => (f.1, v)
      | none => f) = s.conf.globals :=
    map_fill_of_alookup s.conf.globals s.conf.globals
      (alookup_self_of_nodup s.conf.globals hkeys)
  have hfill : fillStructConf (Conf.clone s.conf) (encodeConf s.conf)
      = s.conf := by
    simp only [fillStructConf, encodeConf, Conf.clone]
    rw [hg]
  simp [onConfigSet, onConfigGet, hfill, hcheck]

/-- Witness for C4 on the sample configuration. -/
theorem configSetGetIdentityWitness :
    onConfigSet (fun _ => true) ⟨sampleConf⟩
        (some (onConfigGet ⟨sampleConf⟩).2) =
      (⟨sampleConf⟩, ApiResult.ok, [sampleConf]) :=
  configSetGetIdentity (fun _ => true) ⟨sampleConf⟩ (by decide) rfl

/-- C5: for a name not present in the current paths map, a successful
/v1/config/paths/add followed by /v1/config/paths/remove of the same name
returns the stored configuration to exactly its pre-add value. -/
theorem configPathsAddRemoveRoundtrip (check : Conf → Bool) (s : ApiState)
    (rawName name : String) (b : OptPathConf)
    (hname : stripName rawName = some name)
    (habsent : alookup s.conf.paths name = none)
    (hcheck1 : check
      { globals := s.conf.globals,
        paths := (name, PathConf.fromOpt b) :: s.conf.paths } = true)
    (hcheck2 : check s.conf = true) :
    (onConfigPathsAdd check s rawName (some b)).2.1 = ApiResult.ok ∧
    onConfigPathsDelete check (onConfigPathsAdd check s rawName (some b)).1
      rawName = (s, ApiResult.ok, [s.conf]) := by
  have hstate : onConfigPathsAdd check s rawName (some b) =
      ({ conf :=
          { globals := s.conf.globals,
            paths := (name, PathConf.fromOpt b) :: s.conf.paths } },
       ApiResult.ok,
       [{ globals := s.conf.globals,
          paths := (name, PathConf.fromOpt b) :: s.conf.paths }]) := by
    simp [onConfigPathsAdd, hname, Conf.clone, habsent, hcheck1]
  refine ⟨by rw [hstate], ?_⟩
  rw [hstate]
  simp [onConfigPathsDelete, hname, Conf.clone, alookup, adelete,
    adelete_of_alookup_none s.conf.paths name habsent, hcheck2]

/-- Witness for C5: adding then removing the path new on the sample
configuration restores it. -/
theorem configPathsAddRemoveRoundtripWitness :
    onConfigPathsDelete (fun _ => true)
        (onConfigPathsAdd (fun _ => true) ⟨sampleConf⟩ "/new" (some [])).1
        "/new" = (⟨sampleConf⟩, ApiResult.ok, [sampleConf]) :=
  (configPathsAddRemoveRoundtrip (fun _ => true) ⟨sampleConf⟩ "/new" "new"
    [] (by decide) (by decide) rfl rfl).2

/-- C6: /v1/config/paths/add responds 400 Bad Request and commits nothing
whenever the stripped name already maps to a path, and
/v1/config/paths/edit responds 400 Bad Request and commits nothing
whenever the stripped name maps to no path. -/
theorem configPathsAddEditNameChecks (check : Conf → Bool) (s : ApiState)
    (rawName name : String) (body : Option OptPathConf)
    (hname : stripName rawName = some name) :
    ((alookup s.conf.paths name).isSome = true →
      onConfigPathsAdd check s rawName body =
        (s, ApiResult.badRequest, [])) ∧
    (alookup s.conf.paths name = none →
      onConfigPathsEdit check s rawName body =
        (s, ApiResult.badRequest, [])) := by
  constructor
  · intro h
    cases body with
    | none => simp [onConfigPathsAdd, hname]
    | some b =>
      rcases Option.isSome_iff_exists.mp h with ⟨pc, hpc⟩
      simp [onConfigPathsAdd, hname, Conf.clone, hpc]
  · intro h
    cases body with
    | none => simp [onConfigPathsEdit, hname]
    | some b => simp [onConfigPathsEdit, hname, Conf.clone, h]

/-- Witness for C6: adding the existing path cam1 on the sample
configuration is rejected with 400 and commits nothing. -/
theorem configPathsAddEditNameChecksWitness :
    onConfigPathsAdd (fun _ => true) ⟨sampleConf⟩ "/cam1" none =
      (⟨sampleConf⟩, ApiResult.badRequest, []) :=
  (configPathsAddEditNameChecks (fun _ => true) ⟨sampleConf⟩ "/cam1" "cam1"
    none (by decide)).1 (by decide)

/-- C7: when an RTSP SETUP in the play direction is rejected by the
PathManager, a no-one-publishing error yields RTSP 404 Not Found, an
authentication error takes the challenge/401 flow of handleAuthError, and
every other rejection yields 400 Bad Request. -/
theorem rtspSetupErrorMapping
    (readerAdd : PathReaderAddReq → ReaderAddRes) (s : RtspSessionM)
    (libState : SessionState) (c : RtspConnM)
    (scheme host rawPath query freshNonce p : String)
    (transport : Transport) (tcpEnabled : Bool)
    (hdir : libState = SessionState.initial ∨
      libState = SessionState.prePlay)
    (hpath : rtspStripPath rawPath = some p)
    (htcp : transport = Transport.tcp → tcpEnabled = true) :
    ((readerAdd (mkSetupReaderAddReq p query c.ip
        (if c.authNonce = "" then freshNonce else c.authNonce)
        scheme host)).err = some PathErrM.noOnePublishing →
      (onSetup readerAdd s libState c scheme host rawPath query freshNonce
        transport tcpEnabled).2 =
        SetupOutcome.response statusNotFound false) ∧
    (∀ w, (readerAdd (mkSetupReaderAddReq p query c.ip
        (if c.authNonce = "" then freshNonce else c.authNonce)
        scheme host)).err = some (PathErrM.auth w) →
      (onSetup readerAdd s libState c scheme host rawPath query freshNonce
        transport tcpEnabled).2 = SetupOutcome.authFlow w) ∧
    (∀ m, (readerAdd (mkSetupReaderAddReq p query c.ip
        (if c.authNonce = "" then freshNonce else c.authNonce)
        scheme host)).err = some (PathErrM.other m) →
      (onSetup readerAdd s libState c scheme host rawPath query freshNonce
        transport tcpEnabled).2 =
        SetupOutcome.response statusBadRequest false) := by
  have hc : ¬(transport = Transport.tcp ∧ ¬tcpEnabled = true) := by
    rintro ⟨h1, h2⟩
    exact h2 (htcp h1)
  refine ⟨?_, ?_, ?_⟩
  · intro h
    simp only [onSetup, hpath]
    rw [if_neg hc]
    rcases hdir with rfl | rfl <;> simp [h]
  · intro w h
    simp only [onSetup, hpath]
    rw [if_neg hc]
    rcases hdir with rfl | rfl <;> simp [h]
  · intro m h
    simp only [onSetup, hpath]
    rw [if_neg hc]
    rcases hdir with rfl | rfl <;> simp [h]

/-- Witness for C7: a no-one-publishing rejection of a SETUP from the
initial state is answered with 404. -/
theorem rtspSetupErrorMappingWitness :
    (onSetup (fun _ => ⟨none, none, some PathErrM.noOnePublishing⟩)
        sampleSession SessionState.initial sampleRtspConn
        "rtsp" "example.com" "/cam1" "" "fresh" Transport.udp true).2 =
      SetupOutcome.response statusNotFound false :=
  (rtspSetupErrorMapping
      (fun _ => ⟨none, none, some PathErrM.noOnePublishing⟩)
      sampleSession SessionState.initial sampleRtspConn
      "rtsp" "example.com" "/cam1" "" "fresh" "cam1" Transport.udp true
      (Or.inl rfl) (by decide) (fun _ => rfl)).1 rfl

/-- C8: the RTSP session's recorded state mirrors the protocol handlers as
a state machine: a successful ANNOUNCE sets preRecord, a successful
play-direction SETUP sets prePlay, PLAY moves prePlay to play, RECORD moves
to record, and PAUSE moves play back to prePlay and record back to
preRecord, in the record case also sending publisherStop to the path. -/
theorem rtspSessionStateMachine
    (s : RtspSessionM) (rawPath p : String) (pr : PathRef) (st : StreamRef)
    (readerAdd : PathReaderAddReq → ReaderAddRes) (c : RtspConnM)
    (scheme host query freshNonce : String) (transport : Transport)
    (tcpEnabled : Bool) (libState : SessionState) (runOnRead : Bool)
    (hpath : rtspStripPath rawPath = some p)
    (htcp : transport = Transport.tcp → tcpEnabled = true)
    (hdir : libState = SessionState.initial ∨
      libState = SessionState.prePlay)
    (hok : (readerAdd (mkSetupReaderAddReq p query c.ip
        (if c.authNonce = "" then freshNonce else c.authNonce)
        scheme host)).err = none) :
    (onAnnounce s rawPath (Except.ok pr)).1.state =
      SessionState.preRecord ∧
    (onSetup readerAdd s libState c scheme host rawPath query freshNonce
      transport tcpEnabled).1.state = SessionState.prePlay ∧
    (onPlay s SessionState.prePlay runOnRead).1.state = SessionState.play ∧
    (onRecord s (Except.ok st)).1.state = SessionState.record ∧
    (onPause s SessionState.play).1.state = SessionState.prePlay ∧
    (onPause s SessionState.record).1.state = SessionState.preRecord ∧
    (onPause s SessionState.record).2.1 = [PathCmd.publisherStop] := by
  have hc : ¬(transport = Transport.tcp ∧ ¬tcpEnabled = true) := by
    rintro ⟨h1, h2⟩
    exact h2 (htcp h1)
  refine ⟨?_, ?_, ?_, rfl, rfl, rfl, rfl⟩
  · simp [onAnnounce, hpath]
  · simp only [onSetup, hpath]
    rw [if_neg hc]
    rcases hdir with rfl | rfl <;> simp [hok]
  · simp [onPlay]

/-- Witness for C8: a successful SETUP from the initial state moves the
sample session's recorded state to prePlay. -/
theorem rtspSessionStateMachineWitness :
    (onSetup (fun _ => ⟨some ⟨"cam1"⟩, some ⟨1⟩, none⟩) sampleSession
        SessionState.initial sampleRtspConn "rtsp" "example.com" "/cam1" ""
        "fresh" Transport.udp true).1.state = SessionState.prePlay :=
  (rtspSessionStateMachine sampleSession "/cam1" "cam1" ⟨"cam1"⟩ ⟨1⟩
      (fun _ => ⟨some ⟨"cam1"⟩, some ⟨1⟩, none⟩) sampleRtspConn
      "rtsp" "example.com" "" "fresh" Transport.udp true
      SessionState.initial false (by decide) (fun _ => rfl)
      (Or.inl rfl) rfl).2.1

theorem handshakeLoop_of_candidates :
    ∀ l : List HsEvent,
      (∀ e ∈ l, e = HsEvent.localCandidate true ∨
          e = HsEvent.remoteCandidate true) →
      handshakeLoop l = HsResult.deadlineExceeded
  | [], _ => rfl
  | e :: t, h => by
    have ht := handshakeLoop_of_candidates t
      (fun x hx => h x (List.mem_cons_of_mem e hx))
    rcases h e (List.mem_cons_self e t) with rfl | rfl <;>
      simp [handshakeLoop, ht]

/-- C9: if the peer connection has not reached the connected state within
10 seconds of entering the candidate-exchange loop — every event delivered
before the deadline timer fires is a successful candidate exchange, none a
connection, an error or a cancellation — then the handshake terminates
with the deadline-exceeded error; the deadline constant is 10 seconds. -/
theorem webrtcHandshakeDeadlineExceeded (t0 : Nat)
    (events : List (Nat × HsEvent))
    (h : ∀ te ∈ events, te.1 < t0 + webrtcHandshakeDeadline →
        te.2 = HsEvent.localCandidate true ∨
        te.2 = HsEvent.remoteCandidate true) :
    runHandshake t0 events = HsResult.deadlineExceeded ∧
    webrtcHandshakeDeadline = 10 := by
  refine ⟨?_, rfl⟩
  unfold runHandshake
  apply handshakeLoop_of_candidates
  intro e he
  rcases List.mem_map.mp he with ⟨te, hmem, rfl⟩
  have hm := List.mem_filter.mp hmem
  exact h te hm.1 (by simpa using hm.2)

/-- Witness for C9: two successful candidate exchanges and no connection
before the deadline end in the deadline-exceeded error. -/
theorem webrtcHandshakeDeadlineExceededWitness :
    runHandshake 0 [(1, HsEvent.localCandidate true),
      (3, HsEvent.remoteCandidate true)] = HsResult.deadlineExceeded :=
  (webrtcHandshakeDeadlineExceeded 0 [(1, HsEvent.localCandidate true),
      (3, HsEvent.remoteCandidate true)] (by decide)).1

theorem findFormatIn_isSome (p : FormatM → Bool) :
    ∀ l : List FormatM, (findFormatIn p l).isSome = l.any p
  | [] => rfl
  | g :: t => by
    cases hp : p g with
    | true => simp [findFormatIn, hp]
    | false => simp [findFormatIn, hp, findFormatIn_isSome p t]

theorem findFormatIn_some (p : FormatM → Bool) :
    ∀ (l : List FormatM) (f : FormatM),
      findFormatIn p l = some f → p f = true
  | [], f => by intro h; cases h
  | g :: t, f => by
    intro h
    cases hp : p g with
    | true =>
      simp only [findFormatIn] at h
      rw [if_pos hp] at h
      cases h
      exact hp
    | false =>
      simp only [findFormatIn] at h
      rw [if_neg (by simp [hp])] at h
      exact findFormatIn_some p t f h

theorem findFormat_isSome (p : FormatM → Bool) :
    ∀ medias : MediasM,
      (findFormat p medias).isSome = medias.any (fun m => m.formats.any p)
  | [] => rfl
  | m :: t => by
    cases hf : findFormatIn p m.formats with
    | some f =>
      have ha : m.formats.any p = true := by
        rw [← findFormatIn_isSome p m.formats, hf]
        rfl
      simp [findFormat, hf, ha]
    | none =>
      have ha : m.formats.any p = false := by
        rw [← findFormatIn_isSome p m.formats, hf]
        rfl
      simp [findFormat, hf, ha, findFormat_isSome p t]

theorem findFormat_some (p : FormatM → Bool) :
    ∀ (medias : MediasM) (m : MediaM) (f : FormatM),
      findFormat p medias = some (m, f) → p f = true
  | [], _, _ => by intro h; cases h
  | m0 :: t, m, f => by
    intro h
    cases hf : findFormatIn p m0.formats with
    | some g =>
      simp only [findFormat, hf] at h
      cases h
      exact findFormatIn_some p m0.formats f hf
    | none =>
      simp only [findFormat, hf] at h
      exact findFormat_some p t m f h

theorem hasVKind_av1 (medias : MediasM) :
    hasVKind medias VKind.av1 =
      (findFormat FormatM.isAV1 medias).isSome := by
  have hp : (fun f => decide (vkindOf f = some VKind.av1)) = FormatM.isAV1 :=
    funext (fun f => by cases f <;> rfl)
  unfold hasVKind
  rw [findFormat_isSome, hp]

theorem hasVKind_vp9 (medias : MediasM) :
    hasVKind medias VKind.vp9 =
      (findFormat FormatM.isVP9 medias).isSome := by
  have hp : (fun f => decide (vkindOf f = some VKind.vp9)) = FormatM.isVP9 :=
    funext (fun f => by cases f <;> rfl)
  unfold hasVKind
  rw [findFormat_isSome, hp]

theorem hasVKind_vp8 (medias : MediasM) :
    hasVKind medias VKind.vp8 =
      (findFormat FormatM.isVP8 medias).isSome := by
  have hp : (fun f => decide (vkindOf f = some VKind.vp8)) = FormatM.isVP8 :=
    funext (fun f => by cases f <;> rfl)
  unfold hasVKind
  rw [findFormat_isSome, hp]

theorem hasVKind_h264 (medias : MediasM) :
    hasVKind medias VKind.h264 =
      (findFormat FormatM.isH264 medias).isSome := by
  have hp : (fun f => decide (vkindOf f = some VKind.h264))
      = FormatM.isH264 :=
    funext (fun f => by cases f <;> rfl)
  unfold hasVKind
  rw [findFormat_isSome, hp]

theorem hasAKind_opus (medias : MediasM) :
    hasAKind medias AKind.opus =
      (findFormat FormatM.isOpus medias).isSome := by
  have hp : (fun f => decide (akindOf f = some AKind.opus)) = FormatM.isOpus :=
    funext (fun f => by cases f <;> rfl)
  unfold hasAKind
  rw [findFormat_isSome, hp]

theorem hasAKind_g722 (medias : MediasM) :
    hasAKind medias AKind.g722 =
      (findFormat FormatM.isG722 medias).isSome := by
  have hp : (fun f => decide (akindOf f = some AKind.g722)) = FormatM.isG722 :=
    funext (fun f => by cases f <;> rfl)
  unfold hasAKind
  rw [findFormat_isSome, hp]

theorem hasAKind_g711 (medias : MediasM) :
    hasAKind medias AKind.g711 =
      (findFormat FormatM.isG711 medias).isSome := by
  have hp : (fun f => decide (akindOf f = some AKind.g711)) = FormatM.isG711 :=
    funext (fun f => by cases f <;> rfl)
  unfold hasAKind
  rw [findFormat_isSome, hp]

theorem createVideoTrack_spec (medias : MediasM) :
    (createVideoTrack medias).bind (fun t => vkindOf t.format) =
      specFirstVideoKind medias := by
  unfold createVideoTrack specFirstVideoKind
  cases h1 : findFormat FormatM.isAV1 medias with
  | some mf =>
    obtain ⟨m, f⟩ := mf
    have hk : hasVKind medias VKind.av1 = true := by
      rw [hasVKind_av1, h1]
      rfl
    have hp := findFormat_some FormatM.isAV1 medias m f h1
    have hf : vkindOf f = some VKind.av1 := by
      cases f <;> simp_all [FormatM.isAV1, vkindOf]
    simp [hk, hf]
  | none =>
    have hk1 : hasVKind medias VKind.av1 = false := by
      rw [hasVKind_av1, h1]
      rfl
    cases h2 : findFormat FormatM.isVP9 medias with
    | some mf =>
      obtain ⟨m, f⟩ := mf
      have hk : hasVKind medias VKind.vp9 = true := by
        rw [hasVKind_vp9, h2]
        rfl
      have hp := findFormat_some FormatM.isVP9 medias m f h2
      have hf : vkindOf f = some VKind.vp9 := by
        cases f <;> simp_all [FormatM.isVP9, vkindOf]
      simp [hk1, hk, hf]
    | none =>
      have hk2 : hasVKind medias VKind.vp9 = false := by
        rw [hasVKind_vp9, h2]
        rfl
      cases h3 : findFormat FormatM.isVP8 medias with
      | some mf =>
        obtain ⟨m, f⟩ := mf
        have hk : hasVKind medias VKind.vp8 = true := by
          rw [hasVKind_vp8, h3]
          rfl
        have hp := findFormat_some FormatM.isVP8 medias m f h3
        have hf : vkindOf f = some VKind.vp8 := by
          cases f <;> simp_all [FormatM.isVP8, vkindOf]
        simp [hk1, hk2, hk, hf]
      | none =>
        have hk3 : hasVKind medias VKind.vp8 = false := by
          rw [hasVKind_vp8, h3]
          rfl
        cases h4 : findFormat FormatM.isH264 medias with
        | some mf =>
          obtain ⟨m, f⟩ := mf
          have hk : hasVKind medias VKind.h264 = true := by
            rw [hasVKind_h264, h4]
            rfl
          have hp := findFormat_some FormatM.isH264 medias m f h4
          have hf : vkindOf f = some VKind.h264 := by
            cases f <;> simp_all [FormatM.isH264, vkindOf]
          simp [hk1, hk2, hk3, hk, hf]
        | none =>
          have hk4 : hasVKind medias VKind.h264 = false := by
            rw [hasVKind_h264, h4]
            rfl
          simp [hk1, hk2, hk3, hk4]

theorem createAudioTrack_spec (medias : MediasM) :
    (createAudioTrack medias).bind (fun t => akindOf t.format) =
      specFirstAudioKind medias := by
  unfold createAudioTrack specFirstAudioKind
  cases h1 : findFormat FormatM.isOpus medias with
  | some mf =>
    obtain ⟨m, f⟩ := mf
    have hk : hasAKind medias AKind.opus = true := by
      rw [hasAKind_opus, h1]
      rfl
    have hp := findFormat_some FormatM.isOpus medias m f h1
    have hf : akindOf f = some AKind.opus := by
      cases f <;> simp_all [FormatM.isOpus, akindOf]
    simp [hk, hf]
  | none =>
    have hk1 : hasAKind medias AKind.opus = false := by
      rw [hasAKind_opus, h1]
      rfl
    cases h2 : findFormat FormatM.isG722 medias with
    | some mf =>
      obtain ⟨m, f⟩ := mf
      have hk : hasAKind medias AKind.g722 = true := by
        rw [hasAKind_g722, h2]
        rfl
      have hp := findFormat_some FormatM.isG722 medias m f h2
      have hf : akindOf f = some AKind.g722 := by
        cases f <;> simp_all [FormatM.isG722, akindOf]
      simp [hk1, hk, hf]
    | none =>
      have hk2 : hasAKind medias AKind.g722 = false := by
        rw [hasAKind_g722, h2]
        rfl
      cases h3 : findFormat FormatM.isG711 medias with
      | some mf =>
        obtain ⟨m, f⟩ := mf
        have hk : hasAKind medias AKind.g711 = true := by
          rw [hasAKind_g711, h3]
          rfl
        have hp := findFormat_some FormatM.isG711 medias m f h3
        have hf : akindOf f = some AKind.g711 := by
          cases f <;> simp_all [FormatM.isG711, akindOf]
        simp [hk1, hk2, hk, hf]
      | none =>
        have hk3 : hasAKind medias AKind.g711 = false := by
          rw [hasAKind_g711, h3]
          rfl
        simp [hk1, hk2, hk3]

theorem createVideoTrack_kind (medias : MediasM) (t : WebRTCTrackM)
    (h : createVideoTrack medias = some t) :
    (vkindOf t.format).isSome = true ∧ akindOf t.format = none := by
  unfold createVideoTrack at h
  cases h1 : findFormat FormatM.isAV1 medias with
  | some mf =>
    obtain ⟨m, f⟩ := mf
    rw [h1] at h
    simp at h
    have hp := findFormat_some FormatM.isAV1 medias m f h1
    subst h
    cases f <;> simp_all [FormatM.isAV1, vkindOf, akindOf]
  | none =>
    rw [h1] at h
    simp at h
    cases h2 : findFormat FormatM.isVP9 medias with
    | some mf =>
      obtain ⟨m, f⟩ := mf
      rw [h2] at h
      simp at h
      have hp := findFormat_some FormatM.isVP9 medias m f h2
      subst h
      cases f <;> simp_all [FormatM.isVP9, vkindOf, akindOf]
    | none =>
      rw [h2] at h
      simp at h
      cases h3 : findFormat FormatM.isVP8 medias with
      | some mf =>
        obtain ⟨m, f⟩ := mf
        rw [h3] at h
        simp at h
        have hp := findFormat_some FormatM.isVP8 medias m f h3
        subst h
        cases f <;> simp_all [FormatM.isVP8, vkindOf, akindOf]
      | none =>
        rw [h3] at h
        simp at h
        cases h4 : findFormat FormatM.isH264 medias with
        | some mf =>
          obtain ⟨m, f⟩ := mf
          rw [h4] at h
          simp at h
          have hp := findFormat_some FormatM.isH264 medias m f h4
          subst h
          cases f <;> simp_all [FormatM.isH264, vkindOf, akindOf]
        | none =>
          rw [h4] at h
          cases h

theorem createAudioTrack_kind (medias : MediasM) (t : WebRTCTrackM)
    (h : createAudioTrack medias = some t) :
    (akindOf t.format).isSome = true ∧ vkindOf t.format = none := by
  unfold createAudioTrack at h
  cases h1 : findFormat FormatM.isOpus medias with
  | some mf =>
    obtain ⟨m, f⟩ := mf
    rw [h1] at h
    simp at h
    have hp := findFormat_some FormatM.isOpus medias m f h1
    subst h
    cases f <;> simp_all [FormatM.isOpus, vkindOf, akindOf]
  | none =>
    rw [h1] at h
    simp at h
    cases h2 : findFormat FormatM.isG722 medias with
    | some mf =>
      obtain ⟨m, f⟩ := mf
      rw [h2] at h
      simp at h
      have hp := findFormat_some FormatM.isG722 medias m f h2
      subst h
      cases f <;> simp_all [FormatM.isG722, vkindOf, akindOf]
    | none =>
      rw [h2] at h
      simp at h
      cases h3 : findFormat FormatM.isG711 medias with
      | some mf =>
        obtain ⟨m, f⟩ := mf
        rw [h3] at h
        simp at h
        have hp := findFormat_some FormatM.isG711 medias m f h3
        subst h
        cases f <;> simp_all [FormatM.isG711, vkindOf, akindOf]
      | none =>
        rw [h3] at h
        cases h

/-- C10: the WebRTC reader attaches at most one video and at most one audio
track; the video format is selected by the fixed priority AV1, VP9, VP8,
H264 and the audio format by Opus, G722, G711; when the stream's medias
contain none of these formats, runInner fails with the unsupported-codec
error before any handshake step. -/
theorem webrtcTrackSelection (medias : MediasM) :
    ((createVideoTrack medias).bind (fun t => vkindOf t.format) =
      specFirstVideoKind medias) ∧
    ((createAudioTrack medias).bind (fun t => akindOf t.format) =
      specFirstAudioKind medias) ∧
    (∀ ts, runInnerSetup none medias = RunInnerStep.handshake ts →
      (ts.filter (fun t => (vkindOf t.format).isSome)).length ≤ 1 ∧
      (ts.filter (fun t => (akindOf t.format).isSome)).length ≤ 1) ∧
    (specFirstVideoKind medias = none → specFirstAudioKind medias = none →
      runInnerSetup none medias = RunInnerStep.errUnsupportedCodec) := by
  refine ⟨createVideoTrack_spec medias, createAudioTrack_spec medias,
    ?_, ?_⟩
  · intro ts hts
    unfold runInnerSetup at hts
    cases hv : createVideoTrack medias with
    | some tv =>
      obtain ⟨hv1, hv2⟩ := createVideoTrack_kind medias tv hv
      cases ha : createAudioTrack medias with
      | some ta =>
        obtain ⟨ha1, ha2⟩ := createAudioTrack_kind medias ta ha
        rw [hv, ha] at hts
        simp at hts
        subst hts
        simp [List.filter, hv1, hv2, ha1, ha2]
      | none =>
        rw [hv, ha] at hts
        simp at hts
        subst hts
        simp [List.filter, hv1, hv2]
    | none =>
      cases ha : createAudioTrack medias with
      | some ta =>
        obtain ⟨ha1, ha2⟩ := createAudioTrack_kind medias ta ha
        rw [hv, ha] at hts
        simp at hts
        subst hts
        simp [List.filter, ha1, ha2]
      | none =>
        rw [hv, ha] at hts
        simp at hts
  · intro h1 h2
    have hv : createVideoTrack medias = none := by
      cases hv0 : createVideoTrack medias with
      | none => rfl
      | some t =>
        have hspec := createVideoTrack_spec medias
        rw [hv0, h1] at hspec
        obtain ⟨hk, _⟩ := createVideoTrack_kind medias t hv0
        simp at hspec
        simp [hspec] at hk
    have ha : createAudioTrack medias = none := by
      cases ha0 : createAudioTrack medias with
      | none => rfl
      | some t =>
        have hspec := createAudioTrack_spec medias
        rw [ha0, h2] at hspec
        obtain ⟨hk, _⟩ := createAudioTrack_kind medias t ha0
        simp at hspec
        simp [hspec] at hk
    unfold runInnerSetup
    rw [hv, ha]
    rfl

/-- Witness for C10: a stream with only an H265 media is rejected with the
unsupported-codec error before the handshake. -/
theorem webrtcTrackSelectionWitness :
    runInnerSetup none [⟨[FormatM.h265]⟩] =
      RunInnerStep.errUnsupportedCodec :=
  (webrtcTrackSelection [⟨[FormatM.h265]⟩]).2.2.2 (by decide) (by decide)

end MediaMTX
